import Mathlib

/-!
Verification of the scheduling-algorithm module `src/algorithms.py`.

The module exposes five scheduling entry points (`ldf_single_node`,
`edf_single_node`, `ll_multinode_no_delay`, `ldf_multinode_no_delay`,
`edf_multinode_no_delay`).  Each takes application data (jobs plus dependency
messages) and, for the multinode variants, platform data (nodes plus links),
and returns a record with a `schedule` list, a `missed_deadlines` list and a
policy `name`.  In the source every body is a single `return` of the constant
`example_schedule` wrapped in that record; no function inspects its arguments
and no function raises.  The embedding below reproduces exactly that, with the
input shapes taken from the module docstrings, and the result wrapped in
`Except` so that the presence or absence of the documented fatal errors is
statable.
-/

/-- A job of the application data: identifier, worst-case execution time and
absolute deadline. -/
structure Job where
  id : Nat
  wcet : Nat
  deadline : Nat
deriving DecidableEq, Repr

/-- A dependency message between jobs: the edge sender → receiver plus a
payload size. -/
structure Message where
  sender : Nat
  receiver : Nat
  size : Nat
deriving DecidableEq, Repr

/-- `application_data`: jobs and the messages that indicate dependencies
among jobs. -/
structure ApplicationData where
  jobs : List Job
  messages : List Message
deriving DecidableEq, Repr

/-- A compute node of the platform. -/
structure PlatformNode where
  id : Nat
deriving DecidableEq, Repr

/-- A link between two nodes with its associated link delay. -/
structure Link where
  start_node : Nat
  end_node : Nat
  delay : Nat
deriving DecidableEq, Repr

/-- `platform_data`: the nodes and the links between them. -/
structure PlatformData where
  nodes : List PlatformNode
  links : List Link
deriving DecidableEq, Repr

/-- One entry of a returned schedule: task, node, start/end times and the
task's deadline. -/
structure ScheduleEntry where
  task_id : Nat
  node_id : Nat
  start_time : Nat
  end_time : Nat
  deadline : Nat
deriving DecidableEq, Repr

/-- The value returned by every scheduling entry point: the ordered schedule,
the list of missed-deadline job ids, and the policy name label. -/
structure Schedule where
  schedule : List ScheduleEntry
  missed_deadlines : List Nat
  name : String
deriving DecidableEq, Repr

/-- The fatal error kinds named by the module's documentation. -/
inductive SchedulingError where
  | CyclicDependencyError
  | UnknownJobReferenceError
  | InfeasiblePolicyInputError
  | UnschedulableNodeError
deriving DecidableEq, Repr

/-- The constant schedule from the source ("just an example for the structure
of the schedule to be returned"): tasks 3, 2, 1, 0 on node 0 in consecutive
20-unit slots. -/
def example_schedule : List ScheduleEntry :=
  [ { task_id := 3, node_id := 0, end_time := 20, deadline := 256, start_time := 0 },
    { task_id := 2, node_id := 0, end_time := 40, deadline := 300, start_time := 20 },
    { task_id := 1, node_id := 0, end_time := 60, deadline := 250, start_time := 40 },
    { task_id := 0, node_id := 0, end_time := 80, deadline := 250, start_time := 60 } ]

/-- `ldf_single_node(application_data)`: the body is a single return of the
example schedule with an empty miss list and the LDF single-node label. -/
def ldf_single_node (application_data : ApplicationData) :
    Except SchedulingError Schedule :=
  .ok { schedule := example_schedule, missed_deadlines := [], name := "LDF Single-node" }

/-- `edf_single_node(application_data)`: the body is a single return of the
example schedule with an empty miss list and the EDF single-node label. -/
def edf_single_node (application_data : ApplicationData) :
    Except SchedulingError Schedule :=
  .ok { schedule := example_schedule, missed_deadlines := [], name := "EDF Single-node" }

/-- `ll_multinode_no_delay(application_data, platform_data)`: returns the
example schedule with an empty miss list and the LL label. -/
def ll_multinode_no_delay (application_data : ApplicationData)
    (platform_data : PlatformData) : Except SchedulingError Schedule :=
  .ok { schedule := example_schedule, missed_deadlines := [], name := "LL(without delay)" }

/-- `ldf_multinode_no_delay(application_data, platform_data)`: returns the
example schedule with an empty miss list and the LDF multinode label. -/
def ldf_multinode_no_delay (application_data : ApplicationData)
    (platform_data : PlatformData) : Except SchedulingError Schedule :=
  .ok { schedule := example_schedule, missed_deadlines := [], name := "LDF Multinode(without delay)" }

/-- `edf_multinode_no_delay(application_data, platform_data)`: returns the
example schedule with an empty miss list and the EDF multinode label. -/
def edf_multinode_no_delay (application_data : ApplicationData)
    (platform_data : PlatformData) : Except SchedulingError Schedule :=
  .ok { schedule := example_schedule, missed_deadlines := [], name := "EDF Multinode(without delay)" }

/-- Two schedule entries overlap when they sit on the same node and their
half-open execution intervals [start, end) share an instant. -/
def overlapsOnNode (e₁ e₂ : ScheduleEntry) : Bool :=
  e₁.node_id == e₂.node_id
    && decide (e₁.start_time < e₂.end_time)
    && decide (e₂.start_time < e₁.end_time)

/-- No two distinct entries of the list overlap. -/
def pairwiseNonOverlapping : List ScheduleEntry → Bool
  | [] => true
  | e :: rest => rest.all (fun e₂ => !(overlapsOnNode e e₂)) && pairwiseNonOverlapping rest

/-- Precedence check for the no-delay modes (cross-node transfer is
instantaneous, so the applicable delay is 0): every entry of the schedule
starts no earlier than the completion of every scheduled predecessor that
the application's messages name. -/
def precedenceRespectedNoDelay (application_data : ApplicationData)
    (sched : List ScheduleEntry) : Bool :=
  sched.all fun e =>
    (application_data.messages.filter fun m => m.receiver == e.task_id).all fun m =>
      (sched.filter fun pe => pe.task_id == m.sender).all fun pe =>
        decide (pe.end_time ≤ e.start_time)

/-- The EDF single-node scenario of the specification: three independent jobs
with execution times 10, 20, 30 and deadlines 15, 100, 50, no edges. -/
def edfScenarioApp : ApplicationData :=
  { jobs := [⟨0, 10, 15⟩, ⟨1, 20, 100⟩, ⟨2, 30, 50⟩], messages := [] }

/-- Jobs 0, 1, 2 with the cyclic edge set 0 → 1 → 2 → 0. -/
def cyclicApp : ApplicationData :=
  { jobs := [⟨0, 1, 10⟩, ⟨1, 1, 10⟩, ⟨2, 1, 10⟩],
    messages := [⟨0, 1, 0⟩, ⟨1, 2, 0⟩, ⟨2, 0, 0⟩] }

/-- A valid two-job DAG: job 0 (execution time 80) must precede job 3
(execution time 20). -/
def precedenceApp : ApplicationData :=
  { jobs := [⟨0, 80, 100⟩, ⟨3, 20, 256⟩], messages := [⟨0, 3, 0⟩] }

/-- A single job with execution time 50 and deadline 30: wherever it is
placed (it cannot start before time 0) it finishes past its deadline. -/
def missApp : ApplicationData :=
  { jobs := [⟨0, 50, 30⟩], messages := [] }

/-- Two jobs 5 and 6 with the single edge 5 → 6. -/
def crossApp : ApplicationData :=
  { jobs := [⟨5, 10, 100⟩, ⟨6, 10, 100⟩], messages := [⟨5, 6, 4⟩] }

/-- A platform with two nodes 0 and 1 joined by a link of delay 5. -/
def twoNodePlatform : PlatformData :=
  { nodes := [⟨0⟩, ⟨1⟩], links := [⟨0, 1, 5⟩] }

/-- C1: on the three-job EDF scenario (execution times 10, 20, 30, deadlines
15, 100, 50, no edges) `edf_single_node` does not produce the claimed
timeline: it returns the fixed example schedule, whose first entry is task 3
on node 0 over [0, 20) with deadline 256 — not the deadline-15 job finishing
at time 10 — and no entry of it ends at time 10 or at time 70. -/
theorem edf_scenario_returns_fixed_example :
    edf_single_node edfScenarioApp =
      .ok { schedule := example_schedule, missed_deadlines := [],
            name := "EDF Single-node" } ∧
    example_schedule.head? =
      some { task_id := 3, node_id := 0, start_time := 0, end_time := 20, deadline := 256 } ∧
    example_schedule.all
      (fun e => e.end_time != 10 && e.end_time != 70) = true := by
  refine ⟨rfl, rfl, ?_⟩
  decide

/-- C2: on the cyclic input 0 → 1 → 2 → 0 no entry point raises
`CyclicDependencyError`; every one of the five returns a normal `Schedule`. -/
theorem cyclic_input_not_rejected (p : PlatformData) :
    cyclicApp.messages = [⟨0, 1, 0⟩, ⟨1, 2, 0⟩, ⟨2, 0, 0⟩] ∧
    (∃ s, ldf_single_node cyclicApp = .ok s) ∧
    (∃ s, edf_single_node cyclicApp = .ok s) ∧
    (∃ s, ll_multinode_no_delay cyclicApp p = .ok s) ∧
    (∃ s, ldf_multinode_no_delay cyclicApp p = .ok s) ∧
    (∃ s, edf_multinode_no_delay cyclicApp p = .ok s) ∧
    ldf_single_node cyclicApp ≠ .error SchedulingError.CyclicDependencyError ∧
    edf_single_node cyclicApp ≠ .error SchedulingError.CyclicDependencyError := by
  refine ⟨rfl, ⟨_, rfl⟩, ⟨_, rfl⟩, ⟨_, rfl⟩, ⟨_, rfl⟩, ⟨_, rfl⟩, ?_, ?_⟩ <;>
    exact fun h => Except.noConfusion h

/-- C3: on the valid DAG with the single edge 0 → 3, `edf_single_node` and
`edf_multinode_no_delay` return the fixed example schedule, which starts
task 3 at time 0 while its predecessor task 0 completes at time 80: the
precedence check fails. -/
theorem precedence_violated_on_valid_dag :
    edf_single_node precedenceApp =
      .ok { schedule := example_schedule, missed_deadlines := [],
            name := "EDF Single-node" } ∧
    edf_multinode_no_delay precedenceApp twoNodePlatform =
      .ok { schedule := example_schedule, missed_deadlines := [],
            name := "EDF Multinode(without delay)" } ∧
    precedenceRespectedNoDelay precedenceApp example_schedule = false := by
  refine ⟨rfl, rfl, ?_⟩
  decide

/-- C4: for the job with execution time 50 and deadline 30, neither
`edf_single_node` nor `edf_multinode_no_delay` records the job in
`missed_deadlines`: the returned miss list never contains job 0. -/
theorem deadline_miss_never_recorded :
    (∃ r, edf_single_node missApp = .ok r ∧ r.missed_deadlines.contains 0 = false) ∧
    (∃ r, edf_multinode_no_delay missApp twoNodePlatform = .ok r ∧
      r.missed_deadlines.contains 0 = false) :=
  ⟨⟨_, rfl, rfl⟩, ⟨_, rfl, rfl⟩⟩

/-- C5: on the two-job input 5 → 6 with a two-node platform, the multi-node
no-delay dispatchers return the fixed example schedule: every entry sits on
node 0 (no job is ever assigned to a second node) and neither input job
appears in the schedule at all, so job 6 has no start time coupled to job
5's end time. -/
theorem cross_node_jobs_not_scheduled :
    (∃ r, edf_multinode_no_delay crossApp twoNodePlatform = .ok r ∧
      r.schedule.all (fun e => e.node_id == 0) = true ∧
      r.schedule.all (fun e => e.task_id != 5 && e.task_id != 6) = true) ∧
    (∃ r, ldf_multinode_no_delay crossApp twoNodePlatform = .ok r ∧
      r.schedule.all (fun e => e.node_id == 0) = true ∧
      r.schedule.all (fun e => e.task_id != 5 && e.task_id != 6) = true) := by
  refine ⟨⟨_, rfl, ?_, ?_⟩, ⟨_, rfl, ?_, ?_⟩⟩ <;> decide

/-- C6: for every input, the schedules returned by the single-node entry
points (`ldf_single_node` and `edf_single_node`) have pairwise
non-overlapping entries: no two entries on the node share any instant. -/
theorem single_node_entries_non_overlapping (a : ApplicationData) :
    (∃ r, ldf_single_node a = .ok r ∧ pairwiseNonOverlapping r.schedule = true) ∧
    (∃ r, edf_single_node a = .ok r ∧ pairwiseNonOverlapping r.schedule = true) := by
  refine ⟨⟨_, rfl, ?_⟩, ⟨_, rfl, ?_⟩⟩ <;> decide

/-- C7: every scheduling entry point is deterministic: identical inputs
yield identical results. -/
theorem entry_points_deterministic (a₁ a₂ : ApplicationData)
    (p₁ p₂ : PlatformData) (ha : a₁ = a₂) (hp : p₁ = p₂) :
    ldf_single_node a₁ = ldf_single_node a₂ ∧
    edf_single_node a₁ = edf_single_node a₂ ∧
    ll_multinode_no_delay a₁ p₁ = ll_multinode_no_delay a₂ p₂ ∧
    ldf_multinode_no_delay a₁ p₁ = ldf_multinode_no_delay a₂ p₂ ∧
    edf_multinode_no_delay a₁ p₁ = edf_multinode_no_delay a₂ p₂ := by
  subst ha
  subst hp
  exact ⟨rfl, rfl, rfl, rfl, rfl⟩

/-- Witness for C7 at the concrete empty application and platform. -/
theorem entry_points_deterministic_witness :
    ldf_single_node ⟨[], []⟩ = ldf_single_node ⟨[], []⟩ ∧
    edf_single_node ⟨[], []⟩ = edf_single_node ⟨[], []⟩ ∧
    ll_multinode_no_delay ⟨[], []⟩ ⟨[], []⟩ = ll_multinode_no_delay ⟨[], []⟩ ⟨[], []⟩ ∧
    ldf_multinode_no_delay ⟨[], []⟩ ⟨[], []⟩ = ldf_multinode_no_delay ⟨[], []⟩ ⟨[], []⟩ ∧
    edf_multinode_no_delay ⟨[], []⟩ ⟨[], []⟩ = edf_multinode_no_delay ⟨[], []⟩ ⟨[], []⟩ :=
  entry_points_deterministic ⟨[], []⟩ ⟨[], []⟩ ⟨[], []⟩ ⟨[], []⟩ rfl rfl

/-- C8: each of the five entry points ignores its input and returns the same
constant result: the fixed four-entry schedule with task ids 3, 2, 1, 0 all
on node 0 at times (0,20), (20,40), (40,60), (60,80), an empty
`missed_deadlines` list, and that function's fixed name string. -/
theorem entry_points_constant (a : ApplicationData) (p : PlatformData) :
    ldf_single_node a =
      .ok { schedule := [⟨3, 0, 0, 20, 256⟩, ⟨2, 0, 20, 40, 300⟩,
                         ⟨1, 0, 40, 60, 250⟩, ⟨0, 0, 60, 80, 250⟩],
            missed_deadlines := [], name := "LDF Single-node" } ∧
    edf_single_node a =
      .ok { schedule := [⟨3, 0, 0, 20, 256⟩, ⟨2, 0, 20, 40, 300⟩,
                         ⟨1, 0, 40, 60, 250⟩, ⟨0, 0, 60, 80, 250⟩],
            missed_deadlines := [], name := "EDF Single-node" } ∧
    ll_multinode_no_delay a p =
      .ok { schedule := [⟨3, 0, 0, 20, 256⟩, ⟨2, 0, 20, 40, 300⟩,
                         ⟨1, 0, 40, 60, 250⟩, ⟨0, 0, 60, 80, 250⟩],
            missed_deadlines := [], name := "LL(without delay)" } ∧
    ldf_multinode_no_delay a p =
      .ok { schedule := [⟨3, 0, 0, 20, 256⟩, ⟨2, 0, 20, 40, 300⟩,
                         ⟨1, 0, 40, 60, 250⟩, ⟨0, 0, 60, 80, 250⟩],
            missed_deadlines := [], name := "LDF Multinode(without delay)" } ∧
    edf_multinode_no_delay a p =
      .ok { schedule := [⟨3, 0, 0, 20, 256⟩, ⟨2, 0, 20, 40, 300⟩,
                         ⟨1, 0, 40, 60, 250⟩, ⟨0, 0, 60, 80, 250⟩],
            missed_deadlines := [], name := "EDF Multinode(without delay)" } :=
  ⟨rfl, rfl, rfl, rfl, rfl⟩

/-- C9: no entry point ever returns an error on any input: each of the five
functions returns a normal `Schedule` for every application and platform. -/
theorem entry_points_never_error (a : ApplicationData) (p : PlatformData) :
    (∃ s, ldf_single_node a = .ok s) ∧
    (∃ s, edf_single_node a = .ok s) ∧
    (∃ s, ll_multinode_no_delay a p = .ok s) ∧
    (∃ s, ldf_multinode_no_delay a p = .ok s) ∧
    (∃ s, edf_multinode_no_delay a p = .ok s) :=
  ⟨⟨_, rfl⟩, ⟨_, rfl⟩, ⟨_, rfl⟩, ⟨_, rfl⟩, ⟨_, rfl⟩⟩

/-- C10: for every input, `ldf_single_node` and `edf_single_node` return
results with equal `schedule` and `missed_deadlines` fields, differing only
in the `name` field. -/
theorem single_node_policies_equal_but_name (a : ApplicationData) :
    ∃ r₁ r₂, ldf_single_node a = .ok r₁ ∧ edf_single_node a = .ok r₂ ∧
      r₁.schedule = r₂.schedule ∧
      r₁.missed_deadlines = r₂.missed_deadlines ∧
      r₁.name ≠ r₂.name := by
  refine ⟨_, _, rfl, rfl, rfl, rfl, ?_⟩
  decide
